import Mathlib

/-!
Shallow embedding of the authentication provider registry and credential
lifecycle manager of `src/auth/auth_manager.py` (classes `AuthCredentials`,
`AuthProvider`, `OAuth2Provider`, `BasicAuthProvider`, `APIKeyProvider`,
`JWTProvider`, `AuthManager`).

Modelling conventions:
- Python `Dict[str, V]` becomes an association list `List (String × V)`;
  `d.get(k)` is `dictGet`, `d[k] = v` is `dictSet` (replace first matching
  key in place, else append — Python dicts keep insertion order and keep
  the position of an updated key), `del d[k]` is `dictDel`, `k in d` is
  `dictContains`, `list(d.keys())` is `dictKeys`, `d.clear()` is `[]`.
- Python truthiness of an `Optional[str]` field (`if credentials.access_token:`)
  is `truthy`: `None` and the empty string are falsy.
- `datetime.utcnow()` is an ambient string `now`, passed as a parameter when
  a concrete provider object is built (the only use is the value stamped
  into `metadata["refreshed_at"]`).
- Every `raise` site in the file raises `ValueError(message)`. The three
  sites are modelled as the three constructors of `AuthError`, each of which
  remembers the Python exception class (`pythonClass`, always "ValueError")
  and the message format (`message`).
- Manager operations that can raise return `Except AuthError α × AuthManager`
  so that the state after a raise (unchanged) is explicit; operations that
  only return a value keep their plain shape.
- Metadata values are `Any` in Python; only string values occur in this file,
  so metadata is `List (String × String)`.
-/

/-- `AuthProviderType` enum of `auth_manager.py`. -/
inductive AuthProviderType where
  | oauth2
  | basic
  | api_key
  | jwt
  | custom
deriving DecidableEq, Repr

/-- `AuthCredentials` dataclass: optional token/identity fields plus a
metadata mapping that defaults to an empty dict (`__post_init__`). -/
structure AuthCredentials where
  provider_type : AuthProviderType
  access_token : Option String := none
  refresh_token : Option String := none
  username : Option String := none
  password : Option String := none
  api_key : Option String := none
  expires_in : Option Int := none
  metadata : List (String × String) := []
deriving DecidableEq, Repr

/-- Python truthiness of an `Optional[str]`: `None` and `""` are falsy. -/
def truthy : Option String → Bool
  | none => false
  | some s => !(s == "")

/-- `d.get(k)`: first value stored under key `k`, if any. -/
def dictGet {α : Type} : List (String × α) → String → Option α
  | [], _ => none
  | (k2, v) :: rest, k => if k2 == k then some v else dictGet rest k

/-- `d[k] = v`: replace the first entry with key `k` in place, else append. -/
def dictSet {α : Type} : List (String × α) → String → α → List (String × α)
  | [], k, v => [(k, v)]
  | (k2, v2) :: rest, k, v =>
      if k2 == k then (k, v) :: rest else (k2, v2) :: dictSet rest k v

/-- `del d[k]`: drop the first entry with key `k`. -/
def dictDel {α : Type} : List (String × α) → String → List (String × α)
  | [], _ => []
  | (k2, v2) :: rest, k => if k2 == k then rest else (k2, v2) :: dictDel rest k

/-- `k in d`. -/
def dictContains {α : Type} (d : List (String × α)) (k : String) : Bool :=
  (dictGet d k).isSome

/-- `list(d.keys())`. -/
def dictKeys {α : Type} (d : List (String × α)) : List String :=
  d.map Prod.fst

/-- Keys are pairwise distinct — every state reachable through the Python
dict operations satisfies this. -/
def dictKeysNodup {α : Type} : List (String × α) → Bool
  | [] => true
  | (k, _) :: rest => !(dictContains rest k) && dictKeysNodup rest

/-- A provider object: its `provider_id`, its `config`, and the four
operations of the `AuthProvider` abstract base class. -/
structure AuthProvider where
  provider_id : String
  config : List (String × String) := []
  authenticate : AuthCredentials → Bool
  refresh_token : AuthCredentials → AuthCredentials
  revoke_token : AuthCredentials → Bool
  validate_token : AuthCredentials → Bool

/-- `OAuth2Provider`: authenticate/validate succeed iff the access token is
truthy; refresh stamps `metadata["refreshed_at"]` with the current time and
keeps every other field; revoke returns `True`. -/
def OAuth2Provider (provider_id : String) (now : String)
    (config : List (String × String) := []) : AuthProvider where
  provider_id := provider_id
  config := config
  authenticate := fun c => if truthy c.access_token then true else false
  refresh_token := fun c =>
    { c with metadata := dictSet c.metadata "refreshed_at" now }
  revoke_token := fun _ => true
  validate_token := fun c => if !truthy c.access_token then false else true

/-- `BasicAuthProvider`: authenticate/validate succeed iff username and
password are both truthy; refresh is unsupported and returns its input
unchanged; revoke is unsupported and returns `True`. -/
def BasicAuthProvider (provider_id : String)
    (config : List (String × String) := []) : AuthProvider where
  provider_id := provider_id
  config := config
  authenticate := fun c =>
    if truthy c.username && truthy c.password then true else false
  refresh_token := fun c => c
  revoke_token := fun _ => true
  validate_token := fun c => truthy c.username && truthy c.password

/-- `APIKeyProvider`: authenticate/validate succeed iff the api key is
truthy; refresh is unsupported and returns its input unchanged; revoke
returns `True`. -/
def APIKeyProvider (provider_id : String)
    (config : List (String × String) := []) : AuthProvider where
  provider_id := provider_id
  config := config
  authenticate := fun c => if truthy c.api_key then true else false
  refresh_token := fun c => c
  revoke_token := fun _ => true
  validate_token := fun c => truthy c.api_key

/-- `JWTProvider`: same observable behavior as `OAuth2Provider` — access
token presence, refresh stamps `metadata["refreshed_at"]`, revoke `True`. -/
def JWTProvider (provider_id : String) (now : String)
    (config : List (String × String) := []) : AuthProvider where
  provider_id := provider_id
  config := config
  authenticate := fun c => if truthy c.access_token then true else false
  refresh_token := fun c =>
    { c with metadata := dictSet c.metadata "refreshed_at" now }
  revoke_token := fun _ => true
  validate_token := fun c => if !truthy c.access_token then false else true

/-- The three raise sites of `AuthManager`, one constructor per site. -/
inductive AuthError where
  | duplicateProvider (provider_id : String)
  | providerNotFound (provider_id : String)
  | credentialsNotFound (provider_id : String)
deriving DecidableEq, Repr

/-- The Python exception class raised at each site: every site in
`auth_manager.py` raises `ValueError`. -/
def AuthError.pythonClass : AuthError → String
  | .duplicateProvider _ => "ValueError"
  | .providerNotFound _ => "ValueError"
  | .credentialsNotFound _ => "ValueError"

/-- The message attached to the `ValueError` at each raise site (the
source wraps the id in single quotes; the id is kept as a placeholder). -/
def AuthError.message : AuthError → String
  | .duplicateProvider id => "Provider <" ++ id ++ "> already registered"
  | .providerNotFound id => "Provider <" ++ id ++ "> not found"
  | .credentialsNotFound id => "No credentials found for provider <" ++ id ++ ">"

/-- `AuthManager`: two independently keyed collections, `self._providers`
and `self._credentials`. -/
structure AuthManager where
  providers : List (String × AuthProvider)
  credentials : List (String × AuthCredentials)

/-- `AuthManager()` constructor: both collections empty. -/
def AuthManager.init : AuthManager where
  providers := []
  credentials := []

/-- `register_provider`: raise if the id is already registered, else insert
the provider under its own id. The state component is the manager after the
call (unchanged when the call raised). -/
def AuthManager.register_provider (m : AuthManager) (p : AuthProvider) :
    Except AuthError Unit × AuthManager :=
  if dictContains m.providers p.provider_id then
    (.error (.duplicateProvider p.provider_id), m)
  else
    (.ok (), { m with providers := dictSet m.providers p.provider_id p })

/-- `unregister_provider`: remove the provider entry if present (the
credential entry is left alone); return whether it existed. -/
def AuthManager.unregister_provider (m : AuthManager) (provider_id : String) :
    Bool × AuthManager :=
  if dictContains m.providers provider_id then
    (true, { m with providers := dictDel m.providers provider_id })
  else
    (false, m)

/-- `get_provider`. -/
def AuthManager.get_provider (m : AuthManager) (provider_id : String) :
    Option AuthProvider :=
  dictGet m.providers provider_id

/-- `list_providers`. -/
def AuthManager.list_providers (m : AuthManager) : List String :=
  dictKeys m.providers

/-- `authenticate`: raise if the id is unregistered; delegate to the
provider; on `True` store/overwrite the credential and return `True`;
on `False` return `False` with the state untouched. -/
def AuthManager.authenticate (m : AuthManager) (provider_id : String)
    (credentials : AuthCredentials) : Except AuthError Bool × AuthManager :=
  match m.get_provider provider_id with
  | none => (.error (.providerNotFound provider_id), m)
  | some provider =>
    if provider.authenticate credentials then
      (.ok true, { m with credentials := dictSet m.credentials provider_id credentials })
    else
      (.ok false, m)

/-- `validate_credentials`: `False` when no stored credential or no
registered provider; else delegate to the provider on the stored
credential. Never raises. -/
def AuthManager.validate_credentials (m : AuthManager) (provider_id : String) :
    Bool :=
  match dictGet m.credentials provider_id with
  | none => false
  | some credentials =>
    match m.get_provider provider_id with
    | none => false
    | some provider => provider.validate_token credentials

/-- `refresh_credentials`: raise credentials-not-found when no stored
credential (this check comes FIRST), then raise provider-not-found when the
id is unregistered; otherwise store the provider's refreshed credential and
return `True` unconditionally. -/
def AuthManager.refresh_credentials (m : AuthManager) (provider_id : String) :
    Except AuthError Bool × AuthManager :=
  match dictGet m.credentials provider_id with
  | none => (.error (.credentialsNotFound provider_id), m)
  | some credentials =>
    match m.get_provider provider_id with
    | none => (.error (.providerNotFound provider_id), m)
    | some provider =>
      let updated_credentials := provider.refresh_token credentials
      (.ok true, { m with credentials := dictSet m.credentials provider_id updated_credentials })

/-- `revoke_credentials`: `False` (no raise) when no stored credential or no
provider; else delegate to `revoke_token` — on `True` delete the stored
credential and return `True`, on `False` keep it and return `False`. -/
def AuthManager.revoke_credentials (m : AuthManager) (provider_id : String) :
    Bool × AuthManager :=
  match dictGet m.credentials provider_id with
  | none => (false, m)
  | some credentials =>
    match m.get_provider provider_id with
    | none => (false, m)
    | some provider =>
      if provider.revoke_token credentials then
        (true, { m with credentials := dictDel m.credentials provider_id })
      else
        (false, m)

/-- `get_credentials`. -/
def AuthManager.get_credentials (m : AuthManager) (provider_id : String) :
    Option AuthCredentials :=
  dictGet m.credentials provider_id

/-- `clear_all_credentials`: empty the credential collection. -/
def AuthManager.clear_all_credentials (m : AuthManager) : AuthManager :=
  { m with credentials := [] }

/-- `get_authentication_status`: for every registered provider id, in
registration order, the result of `validate_credentials`. -/
def AuthManager.get_authentication_status (m : AuthManager) :
    List (String × Bool) :=
  (dictKeys m.providers).map (fun provider_id => (provider_id, m.validate_credentials provider_id))

/-! Concrete fixtures used by witnesses and counterexamples. -/

/-- A credential carrying only an access token (the §8 scenario). -/
def credTok : AuthCredentials :=
  { provider_type := .oauth2, access_token := some "tok-1" }

/-- A basic-auth credential with username and password. -/
def credBasic : AuthCredentials :=
  { provider_type := .basic, username := some "u", password := some "pw" }

/-- An api-key credential. -/
def credKey : AuthCredentials :=
  { provider_type := .api_key, api_key := some "k-1" }

/-- Manager with one OAuth2 provider registered under "hf", no credential. -/
def mgrHF : AuthManager :=
  { providers := [("hf", OAuth2Provider "hf" "T0")], credentials := [] }

/-- Manager with the OAuth2 provider under "hf" and `credTok` stored. -/
def mgrHFC : AuthManager :=
  { providers := [("hf", OAuth2Provider "hf" "T0")],
    credentials := [("hf", credTok)] }

/-- Manager with a basic provider under "b" and `credBasic` stored. -/
def mgrB : AuthManager :=
  { providers := [("b", BasicAuthProvider "b")],
    credentials := [("b", credBasic)] }

/-- Manager holding an orphaned credential: `credTok` stored under "hf" with
no provider registered. -/
def mgrOrphan : AuthManager :=
  { providers := [], credentials := [("hf", credTok)] }

/-! Dictionary lemmas. -/

theorem dictGet_dictSet_self {α : Type} (d : List (String × α)) (k : String)
    (v : α) : dictGet (dictSet d k v) k = some v := by
  induction d with
  | nil => simp [dictSet, dictGet]
  | cons hd tl ih =>
    obtain ⟨k2, v2⟩ := hd
    by_cases h : k2 = k
    · simp [dictSet, h, dictGet]
    · simp [dictSet, h, dictGet, ih]

theorem dictSet_get_self {α : Type} (d : List (String × α)) (k : String)
    (v : α) (h : dictGet d k = some v) : dictSet d k v = d := by
  induction d with
  | nil => simp [dictGet] at h
  | cons hd tl ih =>
    obtain ⟨k2, v2⟩ := hd
    by_cases hk : k2 = k
    · subst hk
      simp [dictGet] at h
      simp [dictSet, h]
    · simp [dictGet, hk] at h
      simp [dictSet, hk, ih h]

theorem dictContains_eq_false {α : Type} (d : List (String × α)) (k : String)
    (h : dictGet d k = none) : dictContains d k = false := by
  simp [dictContains, h]

theorem dictGet_none_of_contains_false {α : Type} (d : List (String × α))
    (k : String) (h : dictContains d k = false) : dictGet d k = none := by
  simp [dictContains] at h
  exact Option.not_isSome_iff_eq_none.mp (by simp [h])

theorem dictGet_dictDel_self {α : Type} (d : List (String × α)) (k : String)
    (h : dictKeysNodup d = true) : dictGet (dictDel d k) k = none := by
  induction d with
  | nil => simp [dictDel, dictGet]
  | cons hd tl ih =>
    obtain ⟨k2, v2⟩ := hd
    simp [dictKeysNodup, Bool.and_eq_true] at h
    by_cases hk : k2 = k
    · subst hk
      simp [dictDel]
      exact dictGet_none_of_contains_false tl k2 (by simp [h.1])
    · simp [dictDel, hk, dictGet, ih h.2]

/-! Claim theorems. -/

/-- Claim C1 counterexample: on a fresh manager, where id "missing" was never
registered and no credential is stored for it, `refresh_credentials`
raises the credentials-not-found error, not the provider-not-found error
the claim names: the stored-credential check precedes the provider check. -/
theorem claim_C1_counterexample :
    (AuthManager.init.refresh_credentials "missing").1
      = .error (.credentialsNotFound "missing") ∧
    (AuthManager.init.refresh_credentials "missing").1
      ≠ .error (.providerNotFound "missing") := by
  refine ⟨rfl, ?_⟩
  intro h
  rw [show (AuthManager.init.refresh_credentials "missing").1
      = .error (.credentialsNotFound "missing") from rfl] at h
  simp at h

/-- Claim C1 (amended): calling `refresh_credentials` on an id that was never
registered — the manager holds neither a provider nor a credential for it —
raises the credentials-not-found error (a `ValueError` in the source),
because the stored-credential check comes before the provider check; the
manager state is unchanged. -/
theorem claim_C1_theorem (m : AuthManager) (provider_id : String)
    (hcred : dictGet m.credentials provider_id = none)
    (_hprov : dictGet m.providers provider_id = none) :
    m.refresh_credentials provider_id
      = (.error (.credentialsNotFound provider_id), m) ∧
    (AuthError.credentialsNotFound provider_id).pythonClass = "ValueError" := by
  refine ⟨?_, rfl⟩
  simp [AuthManager.refresh_credentials, hcred]

/-- Claim C1 witness: the amended claim evaluated on the fresh manager at id
"missing". -/
theorem claim_C1_witness :
    AuthManager.init.refresh_credentials "missing"
      = (.error (.credentialsNotFound "missing"), AuthManager.init) ∧
    (AuthError.credentialsNotFound "missing").pythonClass = "ValueError" :=
  claim_C1_theorem AuthManager.init "missing" rfl rfl

/-- Claim C2 counterexample: two of the three structural failures, produced by
concrete calls (duplicate registration of "b", authenticate against the
unregistered id "b"), are distinct errors yet carry the same Python
exception class `ValueError` — as does the third — so the error's kind
alone cannot tell a caller which failure occurred. -/
theorem claim_C2_counterexample :
    (mgrB.register_provider (BasicAuthProvider "b")).1
      = .error (.duplicateProvider "b") ∧
    (AuthManager.init.authenticate "b" credBasic).1
      = .error (.providerNotFound "b") ∧
    (AuthManager.init.refresh_credentials "b").1
      = .error (.credentialsNotFound "b") ∧
    AuthError.duplicateProvider "b" ≠ AuthError.providerNotFound "b" ∧
    (AuthError.duplicateProvider "b").pythonClass
      = (AuthError.providerNotFound "b").pythonClass ∧
    (AuthError.providerNotFound "b").pythonClass
      = (AuthError.credentialsNotFound "b").pythonClass := by
  refine ⟨rfl, rfl, rfl, ?_, rfl, rfl⟩
  intro h
  simp at h

/-- Claim C2 (amended): the three structural failures are raised from three
distinct sites, modelled by the three distinct `AuthError` constructors
with three pairwise-distinct messages, but all of them as the single
Python exception class `ValueError`: a caller can distinguish which
failure occurred by the message, not by the exception class alone. -/
theorem claim_C2_theorem (m : AuthManager) (p : AuthProvider)
    (provider_id : String) (c : AuthCredentials) :
    (dictContains m.providers p.provider_id = true →
      (m.register_provider p).1 = .error (.duplicateProvider p.provider_id)) ∧
    (dictGet m.providers provider_id = none →
      (m.authenticate provider_id c).1 = .error (.providerNotFound provider_id)) ∧
    (dictGet m.credentials provider_id = none →
      (m.refresh_credentials provider_id).1
        = .error (.credentialsNotFound provider_id)) ∧
    (∀ e : AuthError, e.pythonClass = "ValueError") ∧
    (AuthError.duplicateProvider provider_id).message
      ≠ (AuthError.providerNotFound provider_id).message ∧
    (AuthError.duplicateProvider provider_id).message
      ≠ (AuthError.credentialsNotFound provider_id).message ∧
    (AuthError.providerNotFound provider_id).message
      ≠ (AuthError.credentialsNotFound provider_id).message := by
  refine ⟨?_, ?_, ?_, ?_, ?_, ?_, ?_⟩
  · intro h
    simp [AuthManager.register_provider, h]
  · intro h
    simp [AuthManager.authenticate, AuthManager.get_provider, h]
  · intro h
    simp [AuthManager.refresh_credentials, h]
  · intro e
    cases e <;> rfl
  · intro h
    have h2 := congrArg String.length h
    simp [AuthError.message, String.length_append] at h2
    exact absurd h2 (by decide)
  · intro h
    have h2 := congrArg String.length h
    simp [AuthError.message, String.length_append] at h2
    rw [show "Provider <".length = 10 by decide,
      show "> already registered".length = 20 by decide,
      show "No credentials found for provider <".length = 35 by decide,
      show ">".length = 1 by decide] at h2
    omega
  · intro h
    have h2 := congrArg String.length h
    simp [AuthError.message, String.length_append] at h2
    rw [show "Provider <".length = 10 by decide,
      show "> not found".length = 11 by decide,
      show "No credentials found for provider <".length = 35 by decide,
      show ">".length = 1 by decide] at h2
    omega

/-- Claim C2 witness: the amended claim evaluated at concrete failures on
concrete managers, id "b". -/
theorem claim_C2_witness :
    (mgrB.register_provider (BasicAuthProvider "b")).1
      = .error (.duplicateProvider "b") ∧
    (AuthManager.init.authenticate "b" credBasic).1
      = .error (.providerNotFound "b") ∧
    (AuthManager.init.refresh_credentials "b").1
      = .error (.credentialsNotFound "b") ∧
    (AuthError.duplicateProvider "b").message
      ≠ (AuthError.providerNotFound "b").message := by
  obtain ⟨h1, h2, h3, _, h5, _, _⟩ :=
    claim_C2_theorem mgrB (BasicAuthProvider "b") "b" credBasic
  refine ⟨h1 rfl, ?_, ?_, h5⟩
  · obtain ⟨_, h2i, _⟩ := claim_C2_theorem AuthManager.init (BasicAuthProvider "b") "b" credBasic
    exact h2i rfl
  · obtain ⟨_, _, h3i, _⟩ := claim_C2_theorem AuthManager.init (BasicAuthProvider "b") "b" credBasic
    exact h3i rfl

/-- Claim C3: `authenticate(id, credential)` raises the provider-not-found error
when id is unregistered (state unchanged); when the provider's authenticate
returns true it stores the credential under id, overwriting any previous
one, and returns true; when it returns false it returns false and leaves
the whole state — in particular any previously stored credential — exactly
as it was. -/
theorem claim_C3_theorem (m : AuthManager) (provider_id : String)
    (c : AuthCredentials) :
    (dictGet m.providers provider_id = none →
      m.authenticate provider_id c
        = (.error (.providerNotFound provider_id), m)) ∧
    (∀ p, dictGet m.providers provider_id = some p →
      (p.authenticate c = true →
        (m.authenticate provider_id c).1 = .ok true ∧
        ((m.authenticate provider_id c).2).credentials
          = dictSet m.credentials provider_id c ∧
        ((m.authenticate provider_id c).2).get_credentials provider_id
          = some c ∧
        ((m.authenticate provider_id c).2).providers = m.providers) ∧
      (p.authenticate c = false →
        m.authenticate provider_id c = (.ok false, m))) := by
  constructor
  · intro h
    simp [AuthManager.authenticate, AuthManager.get_provider, h]
  · intro p hp
    constructor
    · intro hauth
      simp [AuthManager.authenticate, AuthManager.get_provider, hp, hauth,
        AuthManager.get_credentials, dictGet_dictSet_self]
    · intro hauth
      simp [AuthManager.authenticate, AuthManager.get_provider, hp, hauth]

/-- Claim C3 witness: on the manager with the OAuth2 provider under "hf",
authenticating "hf" with a token-bearing credential succeeds and stores
it; authenticating an unregistered id raises provider-not-found. -/
theorem claim_C3_witness :
    (mgrHF.authenticate "hf" credTok).1 = .ok true ∧
    ((mgrHF.authenticate "hf" credTok).2).get_credentials "hf"
      = some credTok ∧
    mgrHF.authenticate "missing" credTok
      = (.error (.providerNotFound "missing"), mgrHF) := by
  refine ⟨?_, ?_, ?_⟩
  · exact (((claim_C3_theorem mgrHF "hf" credTok).2
      (OAuth2Provider "hf" "T0") rfl).1 rfl).1
  · exact (((claim_C3_theorem mgrHF "hf" credTok).2
      (OAuth2Provider "hf" "T0") rfl).1 rfl).2.2.1
  · exact (claim_C3_theorem mgrHF "missing" credTok).1 rfl

/-- Claim C4: `revoke_credentials(id)` returns false without raising when no
credential is stored for id or no provider is registered under id;
otherwise it delegates to the provider's revoke_token — on true it deletes
the stored credential and returns true, after which `validate_credentials`
returns false; on false it returns false with the state (and the stored
credential) unchanged. -/
theorem claim_C4_theorem (m : AuthManager) (provider_id : String) :
    (dictGet m.credentials provider_id = none →
      m.revoke_credentials provider_id = (false, m)) ∧
    (dictGet m.providers provider_id = none →
      m.revoke_credentials provider_id = (false, m)) ∧
    (∀ c p, dictGet m.credentials provider_id = some c →
      dictGet m.providers provider_id = some p →
      (p.revoke_token c = true →
        m.revoke_credentials provider_id
          = (true, { m with credentials := dictDel m.credentials provider_id }) ∧
        (dictKeysNodup m.credentials = true →
          ((m.revoke_credentials provider_id).2).validate_credentials provider_id
            = false)) ∧
      (p.revoke_token c = false →
        m.revoke_credentials provider_id = (false, m))) := by
  refine ⟨?_, ?_, ?_⟩
  · intro h
    simp [AuthManager.revoke_credentials, h]
  · intro h
    cases hc : dictGet m.credentials provider_id with
    | none => simp [AuthManager.revoke_credentials, hc]
    | some c =>
      simp [AuthManager.revoke_credentials, hc, AuthManager.get_provider, h]
  · intro c p hc hp
    constructor
    · intro hrev
      have hdel : m.revoke_credentials provider_id
          = (true, { m with credentials := dictDel m.credentials provider_id }) := by
        simp [AuthManager.revoke_credentials, hc, AuthManager.get_provider, hp, hrev]
      refine ⟨hdel, ?_⟩
      intro hnodup
      rw [hdel]
      simp [AuthManager.validate_credentials,
        dictGet_dictDel_self m.credentials provider_id hnodup]
    · intro hrev
      simp [AuthManager.revoke_credentials, hc, AuthManager.get_provider, hp, hrev]

/-- Claim C4 witness: on the manager with the OAuth2 provider and stored
credential under "hf", revoke succeeds, deletes the credential, and a
subsequent validate returns false; on the fresh manager revoke returns
false without raising. -/
theorem claim_C4_witness :
    mgrHFC.revoke_credentials "hf"
      = (true, { mgrHFC with credentials := dictDel mgrHFC.credentials "hf" }) ∧
    ((mgrHFC.revoke_credentials "hf").2).validate_credentials "hf" = false ∧
    AuthManager.init.revoke_credentials "hf" = (false, AuthManager.init) := by
  have h := ((claim_C4_theorem mgrHFC "hf").2.2 credTok
    (OAuth2Provider "hf" "T0") rfl rfl).1 rfl
  exact ⟨h.1, h.2 rfl, (claim_C4_theorem AuthManager.init "hf").1 rfl⟩

/-- Claim C5: with an OAuth2-style or JWT-style provider registered under id and
a credential stored there, `refresh_credentials(id)` returns true, and the
stored credential afterwards is the old one with only its metadata changed:
the metadata now maps "refreshed_at" to the refresh timestamp, while
access_token, refresh_token and every other non-metadata field is kept. -/
theorem claim_C5_theorem (m : AuthManager) (provider_id pid now : String)
    (cfg : List (String × String)) (c : AuthCredentials)
    (hc : dictGet m.credentials provider_id = some c)
    (hp : dictGet m.providers provider_id = some (OAuth2Provider pid now cfg) ∨
          dictGet m.providers provider_id = some (JWTProvider pid now cfg)) :
    (m.refresh_credentials provider_id).1 = .ok true ∧
    ((m.refresh_credentials provider_id).2).get_credentials provider_id
      = some { c with metadata := dictSet c.metadata "refreshed_at" now } ∧
    dictGet (dictSet c.metadata "refreshed_at" now) "refreshed_at"
      = some now := by
  refine ⟨?_, ?_, dictGet_dictSet_self c.metadata "refreshed_at" now⟩ <;>
  cases hp with
  | inl h =>
    simp [AuthManager.refresh_credentials, hc, AuthManager.get_provider, h,
      OAuth2Provider, AuthManager.get_credentials, dictGet_dictSet_self]
  | inr h =>
    simp [AuthManager.refresh_credentials, hc, AuthManager.get_provider, h,
      JWTProvider, AuthManager.get_credentials, dictGet_dictSet_self]

/-- Claim C5 witness: refreshing "hf" on the manager with the OAuth2 provider
(ambient time "T0") and stored `credTok` returns true and stamps the
stored credential's metadata while keeping its fields. -/
theorem claim_C5_witness :
    (mgrHFC.refresh_credentials "hf").1 = .ok true ∧
    ((mgrHFC.refresh_credentials "hf").2).get_credentials "hf"
      = some { credTok with metadata := dictSet credTok.metadata "refreshed_at" "T0" } ∧
    dictGet (dictSet credTok.metadata "refreshed_at" "T0") "refreshed_at"
      = some "T0" :=
  claim_C5_theorem mgrHFC "hf" "hf" "T0" [] credTok rfl (Or.inl rfl)

/-- Claim C6: for every credential, each variant's authenticate is true exactly
when its required fields are present — in the Python-truthiness sense the
source tests (`None` and `""` count as missing) — validate_token is the
same predicate, and both are total boolean functions: missing fields give
false, never an exception. -/
theorem claim_C6_theorem (provider_id now : String)
    (cfg : List (String × String)) (c : AuthCredentials) :
    ((OAuth2Provider provider_id now cfg).authenticate c
        = truthy c.access_token ∧
      (OAuth2Provider provider_id now cfg).validate_token c
        = (OAuth2Provider provider_id now cfg).authenticate c) ∧
    ((JWTProvider provider_id now cfg).authenticate c
        = truthy c.access_token ∧
      (JWTProvider provider_id now cfg).validate_token c
        = (JWTProvider provider_id now cfg).authenticate c) ∧
    ((BasicAuthProvider provider_id cfg).authenticate c
        = (truthy c.username && truthy c.password) ∧
      (BasicAuthProvider provider_id cfg).validate_token c
        = (BasicAuthProvider provider_id cfg).authenticate c) ∧
    ((APIKeyProvider provider_id cfg).authenticate c
        = truthy c.api_key ∧
      (APIKeyProvider provider_id cfg).validate_token c
        = (APIKeyProvider provider_id cfg).authenticate c) := by
  cases hA : truthy c.access_token <;>
  cases hU : truthy c.username <;>
  cases hP : truthy c.password <;>
  cases hK : truthy c.api_key <;>
    simp [OAuth2Provider, JWTProvider, BasicAuthProvider, APIKeyProvider,
      hA, hU, hP, hK]

/-- Claim C7: the Basic and API-key providers implement refresh_token as the
identity on credentials, so with such a provider registered under id and a
credential stored there, `refresh_credentials(id)` returns true and leaves
the manager — in particular the stored credential, all its token fields
and metadata — exactly unchanged. -/
theorem claim_C7_theorem (m : AuthManager) (provider_id pid : String)
    (cfg : List (String × String)) (c : AuthCredentials)
    (hc : dictGet m.credentials provider_id = some c)
    (hp : dictGet m.providers provider_id = some (BasicAuthProvider pid cfg) ∨
          dictGet m.providers provider_id = some (APIKeyProvider pid cfg)) :
    (BasicAuthProvider pid cfg).refresh_token c = c ∧
    (APIKeyProvider pid cfg).refresh_token c = c ∧
    m.refresh_credentials provider_id = (.ok true, m) := by
  refine ⟨rfl, rfl, ?_⟩
  cases hp with
  | inl h =>
    simp [AuthManager.refresh_credentials, hc, AuthManager.get_provider, h,
      BasicAuthProvider, dictSet_get_self m.credentials provider_id c hc]
  | inr h =>
    simp [AuthManager.refresh_credentials, hc, AuthManager.get_provider, h,
      APIKeyProvider, dictSet_get_self m.credentials provider_id c hc]

/-- Claim C7 witness: refreshing "b" on the manager with the basic provider and
stored `credBasic` returns true with the state exactly unchanged. -/
theorem claim_C7_witness :
    (BasicAuthProvider "b").refresh_token credBasic = credBasic ∧
    (APIKeyProvider "b").refresh_token credBasic = credBasic ∧
    mgrB.refresh_credentials "b" = (.ok true, mgrB) :=
  claim_C7_theorem mgrB "b" "b" [] credBasic rfl (Or.inl rfl)

/-- Claim C8: registering a provider whose id is already registered raises the
duplicate-provider error, and the second provider is never stored: the
manager after the call is the one before it, so `list_providers` and the
credential collection are exactly as before. -/
theorem claim_C8_theorem (m : AuthManager) (p : AuthProvider)
    (h : dictContains m.providers p.provider_id = true) :
    m.register_provider p = (.error (.duplicateProvider p.provider_id), m) ∧
    ((m.register_provider p).2).list_providers = m.list_providers ∧
    ((m.register_provider p).2).credentials = m.credentials := by
  have h1 : m.register_provider p
      = (.error (.duplicateProvider p.provider_id), m) := by
    simp [AuthManager.register_provider, h]
  rw [h1]
  exact ⟨rfl, rfl, rfl⟩

/-- Claim C8 witness: registering a second provider under "b" on the manager
already holding "b" raises and changes nothing. -/
theorem claim_C8_witness :
    mgrB.register_provider (BasicAuthProvider "b")
      = (.error (.duplicateProvider "b"), mgrB) ∧
    ((mgrB.register_provider (BasicAuthProvider "b")).2).list_providers
      = mgrB.list_providers ∧
    ((mgrB.register_provider (BasicAuthProvider "b")).2).credentials
      = mgrB.credentials :=
  claim_C8_theorem mgrB (BasicAuthProvider "b") rfl

/-- Claim C9: `clear_all_credentials` empties the credential collection and keeps
the provider registrations; `get_authentication_status` is the mapping
whose keys are exactly the registered provider ids, each paired with
`validate_credentials` for that id; hence after clearing it maps every
still-registered id to false. -/
theorem claim_C9_theorem (m : AuthManager) :
    (m.clear_all_credentials).credentials = [] ∧
    (m.clear_all_credentials).providers = m.providers ∧
    m.get_authentication_status
      = (m.list_providers).map
          (fun provider_id => (provider_id, m.validate_credentials provider_id)) ∧
    dictKeys m.get_authentication_status = m.list_providers ∧
    (m.clear_all_credentials).get_authentication_status
      = (m.list_providers).map (fun provider_id => (provider_id, false)) := by
  refine ⟨rfl, rfl, rfl, ?_, ?_⟩
  · simp [dictKeys, AuthManager.get_authentication_status,
      AuthManager.list_providers, List.map_map, Function.comp]
  · rfl

/-- Claim C10: an orphaned credential — stored under id with no provider
registered — remains observable through `get_credentials` while
`validate_credentials` returns false; registering a new provider under the
same id succeeds, keeps the orphaned credential, and makes
`validate_credentials` delegate to the new provider on that credential,
with no intervening authenticate call. -/
theorem claim_C10_theorem (m : AuthManager) (provider_id : String)
    (c : AuthCredentials) (p : AuthProvider)
    (hc : dictGet m.credentials provider_id = some c)
    (hp : dictGet m.providers provider_id = none)
    (hid : p.provider_id = provider_id) :
    m.get_credentials provider_id = some c ∧
    m.validate_credentials provider_id = false ∧
    (m.register_provider p).1 = .ok () ∧
    ((m.register_provider p).2).get_credentials provider_id = some c ∧
    ((m.register_provider p).2).validate_credentials provider_id
      = p.validate_token c := by
  have hreg : m.register_provider p
      = (.ok (), { m with providers := dictSet m.providers p.provider_id p }) := by
    simp [AuthManager.register_provider, dictContains, hid, hp]
  refine ⟨hc, ?_, ?_, ?_, ?_⟩
  · simp [AuthManager.validate_credentials, hc, AuthManager.get_provider, hp]
  · rw [hreg]
  · rw [hreg]
    exact hc
  · rw [hreg]
    simp [AuthManager.validate_credentials, hc, AuthManager.get_provider,
      hid, dictGet_dictSet_self]

/-- Claim C10 witness: on the manager holding the orphaned `credTok` under "hf",
`get_credentials` still returns it and validate is false; after
registering a fresh OAuth2 provider under "hf", validate delegates to it
on the orphaned credential and returns true without any authenticate. -/
theorem claim_C10_witness :
    mgrOrphan.get_credentials "hf" = some credTok ∧
    mgrOrphan.validate_credentials "hf" = false ∧
    (mgrOrphan.register_provider (OAuth2Provider "hf" "T1")).1 = .ok () ∧
    ((mgrOrphan.register_provider (OAuth2Provider "hf" "T1")).2).get_credentials "hf"
      = some credTok ∧
    ((mgrOrphan.register_provider (OAuth2Provider "hf" "T1")).2).validate_credentials "hf"
      = true := by
  have h := claim_C10_theorem mgrOrphan "hf" credTok
    (OAuth2Provider "hf" "T1") rfl rfl rfl
  exact ⟨h.1, h.2.1, h.2.2.1, h.2.2.2.1, h.2.2.2.2.trans rfl⟩
